import Mathlib

set_option maxHeartbeats 1000000
set_option maxRecDepth 100000

namespace InterviewBot

/-- JSON values as decoded by Python's `response.json()`: None, booleans, numbers,
strings, lists and dicts.  Numbers are modelled as integers (no code path in this
repository depends on floats).  Dict keys are unique, as produced by JSON decoding,
and kept in insertion order. -/
inductive Json where
  | null : Json
  | bool (b : Bool) : Json
  | num (n : Int) : Json
  | str (s : String) : Json
  | arr (l : List Json) : Json
  | obj (m : List (String × Json)) : Json

/-- Python exceptions raised on the code paths modelled here.  `exc m` is
`Exception(m)`; `keyError r` carries the repr of the missing key, matching
`str(KeyError(k)) == repr(k)`; `indexError` is the IndexError raised by list
subscripting; `typeError m` covers unsubscriptable / non-iterable operands. -/
inductive PyErr where
  | exc (msg : String) : PyErr
  | keyError (keyRepr : String) : PyErr
  | indexError : PyErr
  | typeError (msg : String) : PyErr
deriving DecidableEq

/-- Python `str(e)` for the exceptions above. -/
def PyErr.toStr : PyErr → String
  | .exc m => m
  | .keyError r => r
  | .indexError => "list index out of range"
  | .typeError m => m

/-- Lookup of a string key in a decoded dict (keys are unique). -/
def lookupKey (m : List (String × Json)) (k : String) : Option Json :=
  match m with
  | [] => none
  | (k', v) :: rest => if k' = k then some v else lookupKey rest k

mutual

/-- Python `repr` of a decoded-JSON value (string escaping simplified: the
strings this repository handles contain no quote or escape characters). -/
def pyrepr : Json → String
  | .null => "None"
  | .bool b => if b then "True" else "False"
  | .num n => toString n
  | .str s => "'" ++ s ++ "'"
  | .arr l => "[" ++ pyreprList l ++ "]"
  | .obj m => "\x7b" ++ pyreprPairs m ++ "\x7d"

/-- Comma-separated reprs of list elements. -/
def pyreprList : List Json → String
  | [] => ""
  | [x] => pyrepr x
  | x :: y :: rest => pyrepr x ++ ", " ++ pyreprList (y :: rest)

/-- Comma-separated `'key': value` reprs of dict entries. -/
def pyreprPairs : List (String × Json) → String
  | [] => ""
  | [(k, v)] => "'" ++ k ++ "': " ++ pyrepr v
  | (k, v) :: p :: rest => "'" ++ k ++ "': " ++ pyrepr v ++ ", " ++ pyreprPairs (p :: rest)

end

/-- Python `str()` of a decoded-JSON value: a string prints bare, containers via repr. -/
def pystr : Json → String
  | .str s => s
  | v => pyrepr v

/-- Python subscripting `v[k]` with a string key. -/
def Json.subStr : Json → String → Except PyErr Json
  | .obj m, k =>
    match lookupKey m k with
    | some v => .ok v
    | none => .error (.keyError ("'" ++ k ++ "'"))
  | .arr _, _ => .error (.typeError "list indices must be integers or slices, not str")
  | .str _, _ => .error (.typeError "string indices must be integers")
  | _, _ => .error (.typeError "object is not subscriptable")

/-- Python subscripting `v[i]` with a non-negative integer index. -/
def Json.subIdx : Json → Nat → Except PyErr Json
  | .arr l, i =>
    match l[i]? with
    | some v => .ok v
    | none => .error .indexError
  | .obj _, i => .error (.keyError (toString i))
  | .str s, i =>
    match s.data[i]? with
    | some c => .ok (.str (String.singleton c))
    | none => .error .indexError
  | _, _ => .error (.typeError "object is not subscriptable")

/-- Membership of a string among the elements of a decoded list
(Python `==` makes a string equal only to an equal string). -/
def strMemList (k : String) : List Json → Bool
  | [] => false
  | .str s :: rest => (s == k) || strMemList k rest
  | _ :: rest => strMemList k rest

/-- Python membership test `k in v` for a string `k`. -/
def Json.hasMem : Json → String → Except PyErr Bool
  | .obj m, k => .ok (lookupKey m k).isSome
  | .arr l, k => .ok (strMemList k l)
  | .str s, k => .ok (decide (k.data <:+: s.data))
  | _, _ => .error (.typeError "argument of type is not iterable")

/-- Python `len(v)`. -/
def Json.pyLen : Json → Except PyErr Nat
  | .arr l => .ok l.length
  | .obj m => .ok m.length
  | .str s => .ok s.length
  | _ => .error (.typeError "object has no len")

/-- An HTTP response as seen through the `requests` library: `status_code`,
the decoded `.json()` body, and the raw `.text`. -/
structure HttpResp where
  status : Nat
  body : Json
  text : String

/-- The two environment credentials read at process start in src/app1.py
(`HF_API_TOKEN = os.getenv("HF_API_KEY")`, `GEMINI_API_KEY = os.getenv("GEMINI_API_KEY")`);
`none` models an unset variable. -/
structure Env where
  HF_API_TOKEN : Option String
  GEMINI_API_KEY : Option String

/-- Python truthiness of an optional string: `None` and the empty string are falsy. -/
def truthy : Option String → Bool
  | none => false
  | some s => !(s == "")

/-- Python truthiness of a string. -/
def strTruthy (s : String) : Bool := !(s == "")

/-- The provider network calls a dispatcher run can issue. -/
inductive ProviderCall where
  | hf : ProviderCall
  | gemini : ProviderCall
deriving DecidableEq

/-- `pat` occurs as a contiguous substring of `s`. -/
def OccursIn (pat s : String) : Prop := pat.data <:+: s.data

instance (pat s : String) : Decidable (OccursIn pat s) :=
  inferInstanceAs (Decidable (pat.data <:+: s.data))

/-! ### The prompt template

The f-string at src/app.py lines 22-61 and src/app1.py lines 63-102 is byte-identical
between the two files except for a single character: app.py writes "JD’s" with
U+2019 RIGHT SINGLE QUOTATION MARK, app1.py writes "JD's" with the ASCII apostrophe
U+0027.  The literal chunks between interpolation points are therefore shared. -/

/-- Template up to the `jd` interpolation. -/
def promptT1 : String :=
  "\n    Do not include job description or repeat inputs in output. response in form of Json.\n\nYou are an expert AI interviewer specializing in technical hiring for software and AI/ML roles.\n\nGiven the following inputs:\n\nJob Description: "

/-- Between `jd` and `level`. -/
def promptT2 : String :=
  "  \nCandidate Experience Level: "

/-- Between `level` and `company_type`. -/
def promptT3 : String :=
  "  \nIndustry Domain: "

/-- Between `company_type` and `num_mcq`. -/
def promptT4 : String :=
  "  \nNumber of MCQs: "

/-- Between `num_mcq` and `num_short_ans`. -/
def promptT5 : String :=
  "  \nNumber of Short Answer Questions: "

/-- Between `num_short_ans` and the first `coding_section` conditional. -/
def promptT6 : String :=
  "  \nInclude Coding Section: "

/-- Between the first `coding_section` conditional and the second `num_mcq`. -/
def promptT7 : String :=
  "\n\nGenerate a comprehensive technical interview test as per the following structure:\n\n1. **Multiple Choice Questions (MCQs)**  \n   - Provide "

/-- Between the second `num_mcq` and the second `coding_section` conditional. -/
def promptT8 : String :=
  " MCQs relevant to the role.  \n   - Each question should have **4 options** (A, B, C, D).  \n   - **Clearly indicate the correct option** and provide a **1–2 line explanation**.\n\n2. **Coding Challenge**  \n   "

/-- Between the second `coding_section` conditional and the apostrophe of "JD's". -/
def promptT9 : String :=
  "  \n   - If included, make the problem aligned to the JD"

/-- Between the apostrophe of "JD's" and the second `num_short_ans`. -/
def promptT10 : String :=
  "s core skills.\n   - Provide sample input/output and a brief outline of the expected approach.\n\n3. **Short Answer Questions**  \n   - Provide "

/-- From the second `num_short_ans` to the end of the template. -/
def promptT11 : String :=
  " questions.  \n   - Each answer should be 3–5 lines long, with technically sound and concise explanations.\n\n**Important Instructions:**  \n- Do **not** include the job description again in the output.  \n- Structure the output with **clear section headings** (MCQs, Coding, Short Answers).  \n- The difficulty and focus should match the candidate's experience level and the domain.\n\nDo not include job description or repeat inputs. Structure your response using markdown in JSON.\n\nReturn only the test.\n\n"

/-- The `coding_section` local variable, identical in src/app.py lines 18-20 and
src/app1.py lines 59-61: empty unless `include_coding`, else
`f"{1 if level == '0-1' else 2} Coding Question(s) (easy to hard) with problem description and expected output.\n"`. -/
def codingSection (level : String) (include_coding : Bool) : String :=
  if include_coding then
    (if level = "0-1" then "1" else "2")
      ++ " Coding Question(s) (easy to hard) with problem description and expected output.\n"
  else ""

namespace App1

/-- The prompt f-string of src/app1.py `generate_interview_test` (lines 59-102),
with the ASCII apostrophe in "JD's".  The `coding_section if coding_section else ...`
conditionals use Python string truthiness. -/
def buildPrompt (jd company_type level : String) (num_mcq : Int)
    (include_coding : Bool) (num_short_ans : Int) : String :=
  promptT1 ++ jd ++ promptT2 ++ level ++ promptT3 ++ company_type ++ promptT4
    ++ toString num_mcq ++ promptT5 ++ toString num_short_ans ++ promptT6
    ++ (if strTruthy (codingSection level include_coding)
        then codingSection level include_coding else "No")
    ++ promptT7 ++ toString num_mcq ++ promptT8
    ++ (if strTruthy (codingSection level include_coding)
        then codingSection level include_coding
        else "Skip this section if not required.")
    ++ promptT9 ++ "'" ++ promptT10 ++ toString num_short_ans ++ promptT11

/-- The request body built by src/app1.py `generate_with_huggingface` (line 42):
`{"inputs": prompt, "options": {"wait_for_model": True}}`. -/
def hfPayload (prompt : String) : Json :=
  .obj [("inputs", .str prompt), ("options", .obj [("wait_for_model", .bool true)])]

/-- The request body built by src/app1.py `generate_with_gemini` (lines 22-26):
`{"contents": [{"parts": [{"text": prompt}]}]}`. -/
def geminiPayload (prompt : String) : Json :=
  .obj [("contents", .arr [.obj [("parts", .arr [.obj [("text", .str prompt)]])]])]

/-- src/app1.py `generate_with_gemini` (lines 20-37): the network POST of
`geminiPayload prompt` is modelled by passing in the response it returns.
On 200 with a present, non-empty `candidates` the text is extracted from
`candidates[0]['content']['parts'][0]['text']`; on 200 otherwise an
`Exception("No response from Gemini API")` is raised; on non-200 an
`Exception` carrying status and body text is raised. -/
def generate_with_gemini (prompt : String) (resp : HttpResp) : Except PyErr Json :=
  let _payload := geminiPayload prompt
  if resp.status = 200 then
    match resp.body.hasMem "candidates" with
    | .error e => .error e
    | .ok false => .error (.exc "No response from Gemini API")
    | .ok true =>
      match resp.body.subStr "candidates" with
      | .error e => .error e
      | .ok cands =>
        match cands.pyLen with
        | .error e => .error e
        | .ok n =>
          if n > 0 then
            (resp.body.subStr "candidates").bind (fun c => c.subIdx 0)
              |>.bind (fun c0 => c0.subStr "content")
              |>.bind (fun content => content.subStr "parts")
              |>.bind (fun parts => parts.subIdx 0)
              |>.bind (fun p0 => p0.subStr "text")
          else .error (.exc "No response from Gemini API")
  else
    .error (.exc ("Gemini API error: " ++ toString resp.status ++ " - " ++ resp.text))

/-- src/app1.py `generate_with_huggingface` (lines 40-54): on 200, a list body is
always sent through `output[0]['generated_text']`; a dict body containing
`generated_text` yields that field; any other body is stringified via `str(output)`;
on non-200 an `Exception` carrying status and body text is raised. -/
def generate_with_huggingface (prompt : String) (resp : HttpResp) : Except PyErr Json :=
  let _payload := hfPayload prompt
  if resp.status = 200 then
    match resp.body with
    | .arr l => ((Json.arr l).subIdx 0).bind (fun x => x.subStr "generated_text")
    | .obj m =>
      if (lookupKey m "generated_text").isSome then
        (Json.obj m).subStr "generated_text"
      else
        .ok (.str (pystr (.obj m)))
    | other => .ok (.str (pystr other))
  else
    .error (.exc ("Hugging Face API error: " ++ toString resp.status ++ " - " ++ resp.text))

/-- The Hugging Face arm of the try block in src/app1.py lines 105-109: attempt the
provider when the token is truthy, else `raise Exception("Hugging Face API token not found")`. -/
def hfAttempt (env : Env) (prompt : String) (hfResp : HttpResp) : Except PyErr Json :=
  if truthy env.HF_API_TOKEN then generate_with_huggingface prompt hfResp
  else .error (.exc "Hugging Face API token not found")

/-- The Gemini arm of the fallback in src/app1.py lines 111-115. -/
def geminiAttempt (env : Env) (prompt : String) (gemResp : HttpResp) : Except PyErr Json :=
  if truthy env.GEMINI_API_KEY then generate_with_gemini prompt gemResp
  else .error (.exc "Gemini API key not found")

/-- Network calls issued by the Hugging Face arm: one POST exactly when the token is truthy. -/
def hfCallsOf (env : Env) : List ProviderCall :=
  if truthy env.HF_API_TOKEN then [.hf] else []

/-- Network calls issued by the Gemini arm: one POST exactly when the key is truthy. -/
def geminiCallsOf (env : Env) : List ProviderCall :=
  if truthy env.GEMINI_API_KEY then [.gemini] else []

/-- src/app1.py `generate_interview_test` (lines 58-117): build the prompt, try
Hugging Face, fall back to Gemini, and combine both failure reasons as
`Exception(f"Both APIs failed. HF: {str(hf_error)}, Gemini: {str(gemini_error)}")`.
The second component records the provider network calls issued, in order. -/
def generate_interview_test (env : Env) (hfResp gemResp : HttpResp)
    (jd company_type level : String) (num_mcq : Int)
    (include_coding : Bool) (num_short_ans : Int) :
    Except PyErr Json × List ProviderCall :=
  match hfAttempt env (buildPrompt jd company_type level num_mcq include_coding num_short_ans) hfResp with
  | .ok v => (.ok v, hfCallsOf env)
  | .error hf_error =>
    match geminiAttempt env (buildPrompt jd company_type level num_mcq include_coding num_short_ans) gemResp with
    | .ok v => (.ok v, hfCallsOf env ++ geminiCallsOf env)
    | .error gemini_error =>
      (.error (.exc ("Both APIs failed. HF: " ++ hf_error.toStr
          ++ ", Gemini: " ++ gemini_error.toStr)),
       hfCallsOf env ++ geminiCallsOf env)

/-- The Streamlit guard at src/app1.py lines 143-144: with a non-blank job
description, the branch `elif not HF_API_TOKEN and not GEMINI_API_KEY` shows the
"no keys" error and never invokes the dispatcher. -/
def uiNoKeysGuard (env : Env) : Bool :=
  !truthy env.HF_API_TOKEN && !truthy env.GEMINI_API_KEY

/-- The distinct message the UI guard displays (src/app1.py line 144). -/
def noKeysMessage : String :=
  "❌ No API keys configured. Please set either HF_API_KEY or GEMINI_API_KEY in your environment."

end App1

namespace App

/-- The prompt f-string of src/app.py `generate_interview_test` (lines 17-61),
identical to App1.buildPrompt except that the apostrophe in "JD’s" is
U+2019 RIGHT SINGLE QUOTATION MARK. -/
def buildPrompt (jd company_type level : String) (num_mcq : Int)
    (include_coding : Bool) (num_short_ans : Int) : String :=
  promptT1 ++ jd ++ promptT2 ++ level ++ promptT3 ++ company_type ++ promptT4
    ++ toString num_mcq ++ promptT5 ++ toString num_short_ans ++ promptT6
    ++ (if strTruthy (codingSection level include_coding)
        then codingSection level include_coding else "No")
    ++ promptT7 ++ toString num_mcq ++ promptT8
    ++ (if strTruthy (codingSection level include_coding)
        then codingSection level include_coding
        else "Skip this section if not required.")
    ++ promptT9 ++ "’" ++ promptT10 ++ toString num_short_ans ++ promptT11

/-- src/app.py `generate_interview_test` (lines 17-75): a single Hugging Face
attempt.  On 200 the body is classified exactly as in src/app1.py's
`generate_with_huggingface`; on any other status the function RETURNS the string
`f"Error: {response.status_code} - {response.text}"` as its normal result
instead of raising. -/
def generate_interview_test (jd company_type level : String) (num_mcq : Int)
    (include_coding : Bool) (num_short_ans : Int) (resp : HttpResp) :
    Except PyErr Json :=
  let _payload := App1.hfPayload
    (buildPrompt jd company_type level num_mcq include_coding num_short_ans)
  if resp.status = 200 then
    match resp.body with
    | .arr l => ((Json.arr l).subIdx 0).bind (fun x => x.subStr "generated_text")
    | .obj m =>
      if (lookupKey m "generated_text").isSome then
        (Json.obj m).subStr "generated_text"
      else
        .ok (.str (pystr (.obj m)))
    | other => .ok (.str (pystr other))
  else
    .ok (.str ("Error: " ++ toString resp.status ++ " - " ++ resp.text))

end App

/-! ### Helper lemmas -/

/-- If `s` splits as `u ++ (pat ++ v)` then `pat` occurs in `s`. -/
theorem occursIn_of_split (pat u v s : String) (h : s = u ++ (pat ++ v)) :
    OccursIn pat s := by
  refine ⟨u.data, v.data, ?_⟩
  rw [h]
  simp [String.data_append]

/-- Occurrence of substrings is transitive. -/
theorem occursIn_trans (a b c : String) (h1 : OccursIn a b) (h2 : OccursIn b c) :
    OccursIn a c :=
  List.IsInfix.trans h1 h2

/-- With coding included, the coding section is a non-empty (truthy) string. -/
theorem codingSection_truthy (lvl : String) :
    strTruthy (codingSection lvl true) = true := by
  by_cases hl : lvl = "0-1" <;> simp [codingSection, strTruthy, hl]

/-! ### C1 -/

/-- C1: when both provider arms of src/app1.py `generate_interview_test` fail (by
raising or by being skipped), the dispatcher raises the single combined exception
whose message is exactly `"Both APIs failed. HF: " ++ hf reason ++ ", Gemini: " ++
Gemini reason` — Hugging Face first, then Gemini, each with its individual reason,
so no error mentioning only one provider's reason can be raised. -/
theorem c1_combined_failure (env : Env) (hfResp gemResp : HttpResp)
    (jd ct lvl : String) (n : Int) (b : Bool) (m : Int) (e1 e2 : PyErr)
    (h1 : App1.hfAttempt env (App1.buildPrompt jd ct lvl n b m) hfResp = .error e1)
    (h2 : App1.geminiAttempt env (App1.buildPrompt jd ct lvl n b m) gemResp = .error e2) :
    (App1.generate_interview_test env hfResp gemResp jd ct lvl n b m).1
      = .error (.exc ("Both APIs failed. HF: " ++ e1.toStr ++ ", Gemini: " ++ e2.toStr)) := by
  unfold App1.generate_interview_test
  rw [h1, h2]

/-- Witness for C1: with no credentials configured, both arms fail with the
credential-missing reasons and the combined message lists both. -/
theorem c1_combined_failure_witness :
    (App1.generate_interview_test ⟨none, none⟩ ⟨200, Json.null, ""⟩ ⟨200, Json.null, ""⟩
        "jd" "Finance" "2-5" 5 true 2).1
      = .error (.exc "Both APIs failed. HF: Hugging Face API token not found, Gemini: Gemini API key not found") :=
  c1_combined_failure ⟨none, none⟩ ⟨200, Json.null, ""⟩ ⟨200, Json.null, ""⟩
    "jd" "Finance" "2-5" 5 true 2 _ _ rfl rfl

/-! ### C2 -/

/-- C2 counterexample: with zero credentials the dispatcher of src/app1.py does NOT
raise a distinct NoProvidersConfigured error; it raises the same combined
"Both APIs failed" exception used for AllProvidersFailed (with the two
credential-missing reasons).  It does issue no network call: the call list is empty. -/
theorem c2_counterexample :
    App1.generate_interview_test ⟨none, none⟩ ⟨200, Json.null, ""⟩ ⟨200, Json.null, ""⟩
        "jd" "Finance" "2-5" 5 true 2
      = (.error (.exc "Both APIs failed. HF: Hugging Face API token not found, Gemini: Gemini API key not found"), []) :=
  rfl

/-- C2 amended: with zero truthy credentials the dispatcher issues no network call,
but the error it raises is the combined "Both APIs failed" exception carrying the two
credential-missing reasons; the distinct "No API keys configured" report is produced
by the Streamlit guard (src/app1.py lines 143-144), which fires exactly in this case
and short-circuits before the dispatcher is invoked, and whose message differs from
the dispatcher's. -/
theorem c2_no_keys (env : Env) (hfResp gemResp : HttpResp)
    (jd ct lvl : String) (n : Int) (b : Bool) (m : Int)
    (hhf : truthy env.HF_API_TOKEN = false) (hgem : truthy env.GEMINI_API_KEY = false) :
    App1.generate_interview_test env hfResp gemResp jd ct lvl n b m
      = (.error (.exc "Both APIs failed. HF: Hugging Face API token not found, Gemini: Gemini API key not found"), [])
    ∧ App1.uiNoKeysGuard env = true
    ∧ App1.noKeysMessage
        ≠ "Both APIs failed. HF: Hugging Face API token not found, Gemini: Gemini API key not found" := by
  refine ⟨?_, ?_, by decide⟩
  · simp [App1.generate_interview_test, App1.hfAttempt, App1.geminiAttempt,
      App1.hfCallsOf, App1.geminiCallsOf, hhf, hgem, PyErr.toStr]
  · simp [App1.uiNoKeysGuard, hhf, hgem]

/-- Witness for C2 (amended): both credentials unset. -/
theorem c2_no_keys_witness :
    App1.generate_interview_test ⟨none, none⟩ ⟨200, Json.null, ""⟩ ⟨200, Json.null, ""⟩
        "jd" "Finance" "0-1" 5 false 2
      = (.error (.exc "Both APIs failed. HF: Hugging Face API token not found, Gemini: Gemini API key not found"), [])
    ∧ App1.uiNoKeysGuard ⟨none, none⟩ = true
    ∧ App1.noKeysMessage
        ≠ "Both APIs failed. HF: Hugging Face API token not found, Gemini: Gemini API key not found" :=
  c2_no_keys ⟨none, none⟩ ⟨200, Json.null, ""⟩ ⟨200, Json.null, ""⟩
    "jd" "Finance" "0-1" 5 false 2 rfl rfl

/-! ### C3 -/

/-- C3 counterexample: in src/app.py a non-2xx provider response is NOT classified as
a failure: `generate_interview_test` RETURNS the string "Error: 500 - boom" as its
normal (success) result, which the Streamlit caller then displays under the success
banner — exactly what the claim rules out. -/
theorem c3_counterexample :
    App.generate_interview_test "jd" "Finance" "2-5" 5 true 2 ⟨500, Json.null, "boom"⟩
      = .ok (.str "Error: 500 - boom") :=
  rfl

/-- C3 amended: for every non-2xx response, the two adapters of src/app1.py raise a
failure whose message carries the numeric status code and the raw body text; the
src/app.py `generate_interview_test`, by contrast, returns the string
"Error: {status} - {body}" (which does contain status and body) as its normal result
instead of classifying the attempt as a failure. -/
theorem c3_non2xx (prompt jd ct lvl : String) (n : Int) (b : Bool) (m : Int)
    (resp : HttpResp) (h : resp.status < 200 ∨ 300 ≤ resp.status) :
    App1.generate_with_huggingface prompt resp
      = .error (.exc ("Hugging Face API error: " ++ toString resp.status ++ " - " ++ resp.text))
    ∧ App1.generate_with_gemini prompt resp
      = .error (.exc ("Gemini API error: " ++ toString resp.status ++ " - " ++ resp.text))
    ∧ App.generate_interview_test jd ct lvl n b m resp
      = .ok (.str ("Error: " ++ toString resp.status ++ " - " ++ resp.text)) := by
  have hne : ¬ resp.status = 200 := by omega
  refine ⟨?_, ?_, ?_⟩ <;>
    simp [App1.generate_with_huggingface, App1.generate_with_gemini,
      App.generate_interview_test, hne]

/-- Witness for C3 (amended) at status 503. -/
theorem c3_non2xx_witness :
    App1.generate_with_huggingface "p" ⟨503, Json.null, "busy"⟩
      = .error (.exc "Hugging Face API error: 503 - busy")
    ∧ App1.generate_with_gemini "p" ⟨503, Json.null, "busy"⟩
      = .error (.exc "Gemini API error: 503 - busy")
    ∧ App.generate_interview_test "jd" "Finance" "2-5" 5 true 2 ⟨503, Json.null, "busy"⟩
      = .ok (.str "Error: 503 - busy") :=
  c3_non2xx "p" "jd" "Finance" "2-5" 5 true 2 ⟨503, Json.null, "busy"⟩ (Or.inr (by decide))

/-! ### C4 -/

/-- C4 counterexample: a 200 response whose body is the empty list is NOT stringified
into a best-effort success by the lenient HF adapter; `output[0]` raises IndexError,
which propagates as the attempt's failure. -/
theorem c4_counterexample :
    App1.generate_with_huggingface "p" ⟨200, Json.arr [], "[]"⟩ = .error .indexError :=
  rfl

/-- C4 amended: the stringify-as-success fallback of the lenient HF adapter applies
exactly to 200 bodies that are neither lists nor dicts containing "generated_text";
a list body is unconditionally sent through `output[0]['generated_text']` and raises
when that shape is absent (the counterexample shows the empty list). -/
theorem c4_stringify (prompt : String) (resp : HttpResp)
    (h200 : resp.status = 200)
    (harr : ∀ l, resp.body ≠ .arr l)
    (hobj : ∀ mm, resp.body = .obj mm → lookupKey mm "generated_text" = none) :
    App1.generate_with_huggingface prompt resp = .ok (.str (pystr resp.body)) := by
  cases hb : resp.body with
  | arr l => exact absurd hb (harr l)
  | obj mm =>
    have hkey := hobj mm hb
    simp [App1.generate_with_huggingface, h200, hb, hkey]
  | null => simp [App1.generate_with_huggingface, h200, hb]
  | bool bb => simp [App1.generate_with_huggingface, h200, hb]
  | num nn => simp [App1.generate_with_huggingface, h200, hb]
  | str ss => simp [App1.generate_with_huggingface, h200, hb]

/-- Witness for C4 (amended): a bare number body is returned stringified. -/
theorem c4_stringify_witness :
    App1.generate_with_huggingface "p" ⟨200, Json.num 7, "7"⟩ = .ok (.str "7") :=
  c4_stringify "p" ⟨200, Json.num 7, "7"⟩ rfl (fun _ h => by cases h) (fun _ h => by cases h)

/-! ### C5 -/

/-- C5: with a truthy Hugging Face token and a successful HF attempt returning `v`,
src/app1.py `generate_interview_test` returns exactly `v` and the only network call
issued is the Hugging Face one — the Gemini request is never issued. -/
theorem c5_hf_success_short_circuits (env : Env) (hfResp gemResp : HttpResp)
    (jd ct lvl : String) (n : Int) (b : Bool) (m : Int) (v : Json)
    (htok : truthy env.HF_API_TOKEN = true)
    (hok : App1.generate_with_huggingface (App1.buildPrompt jd ct lvl n b m) hfResp = .ok v) :
    App1.generate_interview_test env hfResp gemResp jd ct lvl n b m = (.ok v, [.hf]) := by
  simp [App1.generate_interview_test, App1.hfAttempt, App1.hfCallsOf, htok, hok]

/-- Witness for C5: token present, HF responds 200 with a generated_text dict. -/
theorem c5_hf_success_witness :
    App1.generate_interview_test ⟨some "t", none⟩
        ⟨200, Json.obj [("generated_text", Json.str "out")], ""⟩ ⟨200, Json.null, ""⟩
        "jd" "Finance" "2-5" 5 true 2
      = (.ok (.str "out"), [.hf]) :=
  c5_hf_success_short_circuits ⟨some "t", none⟩
    ⟨200, Json.obj [("generated_text", Json.str "out")], ""⟩ ⟨200, Json.null, ""⟩
    "jd" "Finance" "2-5" 5 true 2 (Json.str "out") rfl rfl

/-! ### C6 -/

/-- C6: when the Hugging Face token is not truthy, no HF network request is issued;
the HF arm contributes the reason "Hugging Face API token not found" and dispatch
falls through to the Gemini arm: the Gemini request is issued whenever its key is
truthy, and if the Gemini arm fails with `e2` the combined error pairs the HF
credential-missing reason with `e2`. -/
theorem c6_missing_token_skips_hf (env : Env) (hfResp gemResp : HttpResp)
    (jd ct lvl : String) (n : Int) (b : Bool) (m : Int)
    (h : truthy env.HF_API_TOKEN = false) :
    ProviderCall.hf ∉ (App1.generate_interview_test env hfResp gemResp jd ct lvl n b m).2
    ∧ (truthy env.GEMINI_API_KEY = true →
        ProviderCall.gemini ∈ (App1.generate_interview_test env hfResp gemResp jd ct lvl n b m).2)
    ∧ (∀ e2, App1.geminiAttempt env (App1.buildPrompt jd ct lvl n b m) gemResp = .error e2 →
        (App1.generate_interview_test env hfResp gemResp jd ct lvl n b m).1
          = .error (.exc ("Both APIs failed. HF: Hugging Face API token not found, Gemini: "
              ++ e2.toStr))) := by
  have hhf : App1.hfAttempt env (App1.buildPrompt jd ct lvl n b m) hfResp
      = .error (.exc "Hugging Face API token not found") := by
    simp [App1.hfAttempt, h]
  have hcalls : App1.hfCallsOf env = [] := by
    simp [App1.hfCallsOf, h]
  refine ⟨?_, ?_, ?_⟩
  · cases hg : App1.geminiAttempt env (App1.buildPrompt jd ct lvl n b m) gemResp <;>
      cases hgt : truthy env.GEMINI_API_KEY <;>
      simp [App1.generate_interview_test, hhf, hcalls, hg, App1.geminiCallsOf, hgt]
  · intro hgt
    cases hg : App1.geminiAttempt env (App1.buildPrompt jd ct lvl n b m) gemResp <;>
      simp [App1.generate_interview_test, hhf, hcalls, hg, App1.geminiCallsOf, hgt]
  · intro e2 he2
    simp [App1.generate_interview_test, hhf, hcalls, he2, PyErr.toStr]

/-- Witness for C6: token unset, Gemini key set, Gemini responds 404. -/
theorem c6_missing_token_witness :
    ProviderCall.hf ∉ (App1.generate_interview_test ⟨none, some "k"⟩ ⟨200, Json.null, ""⟩
        ⟨404, Json.null, "nf"⟩ "jd" "Finance" "2-5" 5 true 2).2
    ∧ ProviderCall.gemini ∈ (App1.generate_interview_test ⟨none, some "k"⟩ ⟨200, Json.null, ""⟩
        ⟨404, Json.null, "nf"⟩ "jd" "Finance" "2-5" 5 true 2).2
    ∧ (App1.generate_interview_test ⟨none, some "k"⟩ ⟨200, Json.null, ""⟩
        ⟨404, Json.null, "nf"⟩ "jd" "Finance" "2-5" 5 true 2).1
      = .error (.exc "Both APIs failed. HF: Hugging Face API token not found, Gemini: Gemini API error: 404 - nf") := by
  obtain ⟨a, bmem, c⟩ := c6_missing_token_skips_hf ⟨none, some "k"⟩ ⟨200, Json.null, ""⟩
    ⟨404, Json.null, "nf"⟩ "jd" "Finance" "2-5" 5 true 2 rfl
  exact ⟨a, bmem rfl, c (.exc "Gemini API error: 404 - nf") rfl⟩

/-! ### C7 -/

/-- C7: on a 200 response with a dict body, src/app1.py `generate_with_gemini` raises
`Exception("No response from Gemini API")` whenever the `candidates` key is absent or
maps to an empty array; when `candidates` is a non-empty array whose head has the
expected nested shape, the adapter returns the value at
`candidates[0]['content']['parts'][0]['text']`. -/
theorem c7_gemini_strict (prompt : String) (resp : HttpResp) (mm : List (String × Json))
    (h200 : resp.status = 200) (hbody : resp.body = .obj mm) :
    ((lookupKey mm "candidates" = none ∨ lookupKey mm "candidates" = some (.arr []))  →
      App1.generate_with_gemini prompt resp = .error (.exc "No response from Gemini API"))
    ∧ (∀ (c0 : Json) (rest : List Json) (content parts p0 t : Json),
        lookupKey mm "candidates" = some (.arr (c0 :: rest)) →
        c0.subStr "content" = .ok content →
        content.subStr "parts" = .ok parts →
        parts.subIdx 0 = .ok p0 →
        p0.subStr "text" = .ok t →
        App1.generate_with_gemini prompt resp = .ok t) := by
  constructor
  · rintro (hc | hc) <;>
      simp [App1.generate_with_gemini, h200, hbody, Json.hasMem, Json.subStr,
        Json.pyLen, hc]
  · intro c0 rest content parts p0 t hc hcontent hparts hp0 ht
    have hcand : (Json.obj mm).subStr "candidates" = .ok (.arr (c0 :: rest)) := by
      simp [Json.subStr, hc]
    have hidx : (Json.arr (c0 :: rest)).subIdx 0 = .ok c0 := by
      simp [Json.subIdx]
    simp [App1.generate_with_gemini, h200, hbody, Json.hasMem, hc, hcand,
      Json.pyLen, hidx, Except.bind, hcontent, hparts, hp0, ht]

/-- Witness for C7: the missing-candidates branch and the extraction branch at
concrete responses. -/
theorem c7_gemini_strict_witness :
    App1.generate_with_gemini "p" ⟨200, Json.obj [], ""⟩
      = .error (.exc "No response from Gemini API")
    ∧ App1.generate_with_gemini "p"
        ⟨200, Json.obj [("candidates", Json.arr [Json.obj [("content",
          Json.obj [("parts", Json.arr [Json.obj [("text", Json.str "t")]])])]])], ""⟩
      = .ok (Json.str "t") := by
  constructor
  · exact (c7_gemini_strict "p" ⟨200, Json.obj [], ""⟩ [] rfl rfl).1 (Or.inl rfl)
  · exact (c7_gemini_strict "p" ⟨200, Json.obj [("candidates", Json.arr [Json.obj [("content",
      Json.obj [("parts", Json.arr [Json.obj [("text", Json.str "t")]])])]])], ""⟩
      [("candidates", Json.arr [Json.obj [("content",
        Json.obj [("parts", Json.arr [Json.obj [("text", Json.str "t")]])])]])]
      rfl rfl).2
      (Json.obj [("content", Json.obj [("parts", Json.arr [Json.obj [("text", Json.str "t")]])])])
      [] (Json.obj [("parts", Json.arr [Json.obj [("text", Json.str "t")]])])
      (Json.arr [Json.obj [("text", Json.str "t")]]) (Json.obj [("text", Json.str "t")])
      (Json.str "t") rfl rfl rfl rfl rfl

/-! ### C8 -/

/-- C8: with coding included, the coding section specifies exactly 1 coding question
for experience level "0-1" and exactly 2 for any other level, and both prompts
(src/app.py and src/app1.py) embed that section verbatim. -/
theorem c8_coding_question_count (jd ct lvl lvl2 : String) (n m : Int)
    (h2 : lvl2 ≠ "0-1") :
    codingSection "0-1" true
      = "1 Coding Question(s) (easy to hard) with problem description and expected output.\n"
    ∧ codingSection lvl2 true
      = "2 Coding Question(s) (easy to hard) with problem description and expected output.\n"
    ∧ (∃ u v, App1.buildPrompt jd ct lvl n true m = u ++ (codingSection lvl true ++ v))
    ∧ (∃ u v, App.buildPrompt jd ct lvl n true m = u ++ (codingSection lvl true ++ v)) := by
  refine ⟨rfl, ?_, ?_, ?_⟩
  · simp [codingSection, h2]
  · refine ⟨promptT1 ++ jd ++ promptT2 ++ lvl ++ promptT3 ++ ct ++ promptT4
        ++ toString n ++ promptT5 ++ toString m ++ promptT6 ++ codingSection lvl true
        ++ promptT7 ++ toString n ++ promptT8,
      promptT9 ++ "'" ++ promptT10 ++ toString m ++ promptT11, ?_⟩
    simp [App1.buildPrompt, codingSection_truthy, String.append_assoc]
  · refine ⟨promptT1 ++ jd ++ promptT2 ++ lvl ++ promptT3 ++ ct ++ promptT4
        ++ toString n ++ promptT5 ++ toString m ++ promptT6 ++ codingSection lvl true
        ++ promptT7 ++ toString n ++ promptT8,
      promptT9 ++ "’" ++ promptT10 ++ toString m ++ promptT11, ?_⟩
    simp [App.buildPrompt, codingSection_truthy, String.append_assoc]

/-- Witness for C8 at levels "0-1" and "2-5". -/
theorem c8_coding_question_count_witness :
    codingSection "0-1" true
      = "1 Coding Question(s) (easy to hard) with problem description and expected output.\n"
    ∧ codingSection "2-5" true
      = "2 Coding Question(s) (easy to hard) with problem description and expected output.\n"
    ∧ (∃ u v, App1.buildPrompt "jd" "Finance" "0-1" 5 true 2
        = u ++ (codingSection "0-1" true ++ v))
    ∧ (∃ u v, App.buildPrompt "jd" "Finance" "0-1" 5 true 2
        = u ++ (codingSection "0-1" true ++ v)) :=
  c8_coding_question_count "jd" "Finance" "0-1" "2-5" 5 2 (by decide)

/-! ### C9 -/

/-- C9 counterexample: the claim's "contains the marker iff includeCoding" fails,
because the job description is embedded verbatim in the prompt: at the valid request
(mcqCount 5 ≥ 1, shortAnswerCount 2 ≥ 1) whose job description is itself
"Coding Question(s)" and with includeCoding = false, the prompt contains the marker. -/
theorem c9_counterexample :
    (1:Int) ≤ 5 ∧ (1:Int) ≤ 2
    ∧ OccursIn "Coding Question(s)"
        (App1.buildPrompt "Coding Question(s)" "Finance" "2-5" 5 false 2) := by
  refine ⟨by decide, by decide, ?_⟩
  refine occursIn_of_split _ promptT1
    (promptT2 ++ "2-5" ++ promptT3 ++ "Finance" ++ promptT4 ++ toString (5:Int)
      ++ promptT5 ++ toString (2:Int) ++ promptT6 ++ "No" ++ promptT7 ++ toString (5:Int)
      ++ promptT8 ++ "Skip this section if not required." ++ promptT9 ++ "'"
      ++ promptT10 ++ toString (2:Int) ++ promptT11) _ ?_
  simp [App1.buildPrompt, codingSection, strTruthy, String.append_assoc]

/-- C9 amended: for every valid request the prompt embeds the decimal renderings of
both counts; it contains the marker "Coding Question(s)" whenever includeCoding is
true; prompt building is a pure function (two identical calls give identical
strings); and when includeCoding is false the prompt decomposes into fixed template
chunks with the user fields spliced between them, every fixed chunk being free of
the marker — so a marker can then only come from an embedded user-supplied field
(which the counterexample shows can happen, refuting the unconditional "only if"). -/
theorem c9_prompt_contents (jd ct lvl : String) (n m : Int) (b : Bool)
    (hn : 1 ≤ n) (hm : 1 ≤ m) :
    OccursIn (toString n) (App1.buildPrompt jd ct lvl n b m)
    ∧ OccursIn (toString m) (App1.buildPrompt jd ct lvl n b m)
    ∧ (b = true → OccursIn "Coding Question(s)" (App1.buildPrompt jd ct lvl n b m))
    ∧ App1.buildPrompt jd ct lvl n b m = App1.buildPrompt jd ct lvl n b m
    ∧ (b = false →
        App1.buildPrompt jd ct lvl n b m
          = promptT1 ++ jd ++ promptT2 ++ lvl ++ promptT3 ++ ct ++ promptT4
            ++ toString n ++ promptT5 ++ toString m ++ promptT6 ++ "No"
            ++ promptT7 ++ toString n ++ promptT8 ++ "Skip this section if not required."
            ++ promptT9 ++ "'" ++ promptT10 ++ toString m ++ promptT11)
    ∧ ¬ OccursIn "Coding Question(s)" promptT1
    ∧ ¬ OccursIn "Coding Question(s)" promptT2
    ∧ ¬ OccursIn "Coding Question(s)" promptT3
    ∧ ¬ OccursIn "Coding Question(s)" promptT4
    ∧ ¬ OccursIn "Coding Question(s)" promptT5
    ∧ ¬ OccursIn "Coding Question(s)" promptT6
    ∧ ¬ OccursIn "Coding Question(s)" "No"
    ∧ ¬ OccursIn "Coding Question(s)" promptT7
    ∧ ¬ OccursIn "Coding Question(s)" promptT8
    ∧ ¬ OccursIn "Coding Question(s)" "Skip this section if not required."
    ∧ ¬ OccursIn "Coding Question(s)" promptT9
    ∧ ¬ OccursIn "Coding Question(s)" "'"
    ∧ ¬ OccursIn "Coding Question(s)" promptT10
    ∧ ¬ OccursIn "Coding Question(s)" promptT11 := by
  refine ⟨?_, ?_, ?_, rfl, ?_, by decide, by decide, by decide, by decide, by decide,
    by decide, by decide, by decide, by decide, by decide, by decide, by decide,
    by decide, by decide⟩
  · refine occursIn_of_split _
      (promptT1 ++ jd ++ promptT2 ++ lvl ++ promptT3 ++ ct ++ promptT4)
      (promptT5 ++ toString m ++ promptT6
        ++ (if strTruthy (codingSection lvl b) then codingSection lvl b else "No")
        ++ promptT7 ++ toString n ++ promptT8
        ++ (if strTruthy (codingSection lvl b) then codingSection lvl b
            else "Skip this section if not required.")
        ++ promptT9 ++ "'" ++ promptT10 ++ toString m ++ promptT11) _ ?_
    simp [App1.buildPrompt, String.append_assoc]
  · refine occursIn_of_split _
      (promptT1 ++ jd ++ promptT2 ++ lvl ++ promptT3 ++ ct ++ promptT4
        ++ toString n ++ promptT5)
      (promptT6
        ++ (if strTruthy (codingSection lvl b) then codingSection lvl b else "No")
        ++ promptT7 ++ toString n ++ promptT8
        ++ (if strTruthy (codingSection lvl b) then codingSection lvl b
            else "Skip this section if not required.")
        ++ promptT9 ++ "'" ++ promptT10 ++ toString m ++ promptT11) _ ?_
    simp [App1.buildPrompt, String.append_assoc]
  · intro hb
    subst hb
    have h1 : OccursIn "Coding Question(s)" (codingSection lvl true) := by
      by_cases hl : lvl = "0-1" <;> simp [codingSection, hl] <;> decide
    have h2 : OccursIn (codingSection lvl true) (App1.buildPrompt jd ct lvl n true m) := by
      refine occursIn_of_split _
        (promptT1 ++ jd ++ promptT2 ++ lvl ++ promptT3 ++ ct ++ promptT4
          ++ toString n ++ promptT5 ++ toString m ++ promptT6 ++ codingSection lvl true
          ++ promptT7 ++ toString n ++ promptT8)
        (promptT9 ++ "'" ++ promptT10 ++ toString m ++ promptT11) _ ?_
      simp [App1.buildPrompt, codingSection_truthy, String.append_assoc]
    exact occursIn_trans _ _ _ h1 h2
  · intro hb
    subst hb
    have h0 : codingSection lvl false = "" := rfl
    have h1 : strTruthy "" = false := rfl
    simp [App1.buildPrompt, h0, h1, String.append_assoc]

/-- Witness for C9 (amended) at the spec's example request. -/
theorem c9_prompt_contents_witness :
    OccursIn (toString (5:Int))
      (App1.buildPrompt "Build REST APIs in a backend language"
        "Information Technology (IT) / Software" "2-5" 5 true 2) :=
  (c9_prompt_contents "Build REST APIs in a backend language"
    "Information Technology (IT) / Software" "2-5" 5 2 true (by decide) (by decide)).1

/-! ### C10 -/

/-- C10 counterexample: at a concrete input the two prompts are not
character-for-character equal (app.py has U+2019 in "JD’s", app1.py has the ASCII
apostrophe). -/
theorem c10_counterexample :
    App.buildPrompt "jd" "Finance" "2-5" 5 true 2
      ≠ App1.buildPrompt "jd" "Finance" "2-5" 5 true 2 := by
  decide

/-- C10 amended: for every identical six-tuple of inputs, the two prompts share a
common prefix and common suffix and differ exactly in the single character between
them — U+2019 RIGHT SINGLE QUOTATION MARK in src/app.py against the ASCII apostrophe
in src/app1.py — and are therefore never equal. -/
theorem c10_single_char_difference (jd ct lvl : String) (n : Int) (b : Bool) (m : Int) :
    (∃ u v, App.buildPrompt jd ct lvl n b m = u ++ ("’" ++ v)
      ∧ App1.buildPrompt jd ct lvl n b m = u ++ ("'" ++ v))
    ∧ App.buildPrompt jd ct lvl n b m ≠ App1.buildPrompt jd ct lvl n b m := by
  have hsplit : ∃ u v, App.buildPrompt jd ct lvl n b m = u ++ ("’" ++ v)
      ∧ App1.buildPrompt jd ct lvl n b m = u ++ ("'" ++ v) := by
    refine ⟨promptT1 ++ jd ++ promptT2 ++ lvl ++ promptT3 ++ ct ++ promptT4
        ++ toString n ++ promptT5 ++ toString m ++ promptT6
        ++ (if strTruthy (codingSection lvl b) then codingSection lvl b else "No")
        ++ promptT7 ++ toString n ++ promptT8
        ++ (if strTruthy (codingSection lvl b) then codingSection lvl b
            else "Skip this section if not required.")
        ++ promptT9,
      promptT10 ++ toString m ++ promptT11, ?_, ?_⟩ <;>
      simp [App.buildPrompt, App1.buildPrompt, String.append_assoc]
  refine ⟨hsplit, ?_⟩
  obtain ⟨u, v, h1, h2⟩ := hsplit
  intro heq
  rw [h1, h2] at heq
  have hdata := congrArg String.data heq
  simp only [String.data_append] at hdata
  have hcons := List.append_cancel_left hdata
  have hchar := List.append_cancel_right hcons
  exact absurd hchar (by decide)

end InterviewBot
